import Mathlib

/-!
Verification of the zkVIP threshold-attestation pipeline
(`front-end/src/lib/vlayer.ts`) against its natural-language
specification.

The TypeScript source is shallowly embedded below.  JavaScript numbers
are modelled as rationals (`ℚ`); `Math.floor` is `Int.floor`; thrown
exceptions are modelled with `Except` over an explicit error type whose
constructors correspond to the distinct `throw` sites of the source;
the emission of progress events and the invocations of the external
proof capability are recorded explicitly in the pipeline's result so
that temporal claims about them can be stated.

The `zkProof` module (`generateProof`, `generateRandomNonce`) is
imported by `vlayer.ts` but its source is not part of the repository
snapshot; it is modelled from the spec where indicated.
-/

/-- Account kind, from the `type: 'checking' | 'savings'` union in the
`NubankAccount` interface. -/
inductive AccountType where
  | checking
  | savings
deriving DecidableEq, Repr

/-- Embedding of the `NubankAccount` interface (vlayer.ts lines 9-15).
The JavaScript `number` balance is modelled as a rational. -/
structure NubankAccount where
  id : String
  name : String
  type : AccountType
  balance : ℚ
  currency : String
deriving DecidableEq, Repr

/-- Embedding of the `bank` field of `NubankBankData`. -/
structure BankInfo where
  id : String
  name : String
  code : String
deriving DecidableEq, Repr

/-- Embedding of the `NubankBankData` interface (vlayer.ts lines 17-24). -/
structure NubankBankData where
  bank : BankInfo
  accounts : List NubankAccount
deriving DecidableEq, Repr

/-- Embedding of the `WebProof` interface (vlayer.ts lines 27-32).  The
`data` field is typed `any` in the source, so it is a type parameter
here; the opaque network `response` handle is omitted (it is never
consulted by the verified logic). -/
structure WebProof (α : Type) where
  url : String
  data : α
  timestamp : ℕ
deriving DecidableEq, Repr

/-- Embedding of the `Web` interface (vlayer.ts lines 35-39). -/
structure Web (α : Type) where
  url : String
  data : α
  json : α
deriving DecidableEq, Repr

/-- Error taxonomy: one constructor per distinct `throw` site of the
embedded source reachable from the verified functions.  The source
throws `Error` values with Portuguese messages; the constructors keep
the data interpolated into those messages. -/
inductive VError where
  /-- thrown as "Nenhuma conta encontrada no Nubank" -/
  | noAccountsFound
  /-- thrown as "Saldo insuficiente. Necessário: (t) WLD, Disponível: (b) WLD";
  carries the required threshold and the available WLD balance (the
  message formats the available amount with two decimals, a
  string-formatting detail not modelled). -/
  | insufficientBalance (required : ℚ) (available : ℚ)
  /-- thrown as "A prova gerada não é válida" -/
  | proofInvalid
  /-- thrown as "Path (path) not found in JSON" by the JSON accessors -/
  | pathNotFound (path : String)
deriving DecidableEq, Repr

/-- The constant `NUBANK_DATA_URL` (vlayer.ts line 52). -/
def NUBANK_DATA_URL : String := "https://api.nubank.com.br/api/banks"

/-- Embedding of `verifyWebProof` (vlayer.ts lines 109-123).  The body
of the source's `try` block only copies fields and cannot throw, so the
embedding always succeeds; no validation of the payload is performed by
the source. -/
def verifyWebProof {α : Type} (webProof : WebProof α) : Except VError (Web α) :=
  Except.ok { url := webProof.url, data := webProof.data, json := webProof.data }

/-- Embedding of `convertBRLToWLD` (vlayer.ts lines 263-267):
multiplies the BRL amount by the exchange rate.  The source's default
rate is 0.18. -/
def convertBRLToWLD (brlAmount : ℚ) (exchangeRate : ℚ) : ℚ :=
  brlAmount * exchangeRate

/-- The default exchange rate 0.18 of `convertBRLToWLD`. -/
def defaultRate : ℚ := 18 / 100

/-- The conversion to micro-units used at vlayer.ts lines 337 and 339:
`Math.floor(x * 1e6)`. -/
def microOf (q : ℚ) : ℤ := ⌊q * 1000000⌋

/-- The accumulator step of the account-selection `reduce` at
vlayer.ts lines 248-250 and 304-306:
`(max, account) => account.balance > max.balance ? account : max`,
folded over the tail of the list with the head as initial value
(JavaScript `reduce` without an initial accumulator). -/
def selAux (a : NubankAccount) : List NubankAccount → NubankAccount
  | [] => a
  | b :: l => selAux (if b.balance > a.balance then b else a) l

/-- Account selection as performed by the source: `none` for an empty
list (the source throws "Nenhuma conta encontrada" before the `reduce`
in that case), otherwise the `reduce` over the list. -/
def selectAccount : List NubankAccount → Option NubankAccount
  | [] => none
  | a :: l => some (selAux a l)

/-- Embedding of the `ProofInputs` record built at vlayer.ts lines
336-341.  `threshold` and `balance` are the `Math.floor` results (ℤ);
the nonce bytes are modelled as ℕ. -/
structure ProofInputs where
  threshold : ℤ
  nonce : ℕ
  balance : ℤ
  secret_nonce : ℕ
deriving DecidableEq, Repr

/-- Result of the proof capability.  Modelled from the spec: the
`zkProof` module is absent from the repository sources; spec section 6
gives the shape (an `isValid` flag plus opaque proof data) and section 3
gives the public inputs (thresholdMicro, nonce). -/
structure ProofResult where
  isValid : Bool
  proofBytes : List ℕ
  publicThreshold : ℤ
  publicNonce : ℕ
deriving DecidableEq, Repr

/-- Modelled from the spec: `generateProof` lives in the missing
`zkProof` module.  Per spec section 6 it maps `ProofInputs` to a result
with an `isValid` flag, and per spec section 8 the (mocked) proof
system yields `isValid` exactly when balance is at least the threshold.
The opaque proof bytes are modelled as the empty list. -/
def generateProof (inputs : ProofInputs) : ProofResult :=
  { isValid := decide (inputs.threshold ≤ inputs.balance)
    proofBytes := []
    publicThreshold := inputs.threshold
    publicNonce := inputs.nonce }

/-- Embedding of the `VLayerResult` interface (vlayer.ts lines 41-49):
the value returned to the caller on success. -/
structure VLayerResult where
  webProof : WebProof NubankBankData
  web : Web NubankBankData
  bankData : NubankBankData
  selectedAccount : NubankAccount
  proof : ProofResult
  threshold : ℚ
  balance : ℚ
deriving DecidableEq, Repr

/-- One observed run of `vlayerGenerateProof`: its terminal result, the
full ordered list of progress events `(percent, label)` emitted to the
`onProgress` sink, the number of invocations of the proof capability,
and the inputs of each such invocation. -/
structure PipelineRun where
  result : Except VError VLayerResult
  progress : List (ℚ × String)
  proofCalls : ℕ
  proofInputsList : List ProofInputs

/-- The mocked Nubank response (vlayer.ts lines 170-197), which is what
`createWebProof` puts into the evidence in the repository snapshot. -/
def mockNubankResponse : NubankBankData :=
  { bank := { id := "nubank", name := "Nubank", code := "260" }
    accounts :=
      [ { id := "acc-001", name := "Conta Corrente", type := AccountType.checking
          balance := 500075 / 100, currency := "BRL" }
      , { id := "acc-002", name := "NuConta", type := AccountType.savings
          balance := 1250050 / 100, currency := "BRL" } ] }

/-- Embedding of `vlayerGenerateProof` (vlayer.ts lines 278-375).

Parameters standing for the effects of external calls: `data` is the
bank payload carried by the web proof (`createWebProof` attaches the
fetched/mocked response body), `ts` its timestamp (`Date.now()`),
`nonce` the value produced by the external `generateRandomNonce`, and
`sub` the sub-progress events `(percent, label)` that the external
`generateProof` feeds to the forwarded callback during synthesis.

The body mirrors the source line by line: emit 0 and 10, build the web
proof; emit 20, verify it; emit 30, abort if the accounts list is
empty; emit 40, select the max-balance account by `reduce`; emit 50,
convert BRL to WLD with the default rate; abort with the
insufficient-balance error if the WLD balance is below the threshold;
emit 60 (nonce), 70 (prepare), build `ProofInputs` with
`Math.floor(x * 1e6)` scaling and the same nonce in both nonce fields;
emit 70 again (generate), run the proof capability (its sub-progress
remapped by `70 + p * 0.3`), abort if the proof is not valid, emit 100
and return the `VLayerResult`. -/
def vlayerGenerateProof (threshold : ℚ) (data : NubankBankData)
    (ts : ℕ) (nonce : ℕ) (sub : List (ℚ × String)) : PipelineRun :=
  let webProof : WebProof NubankBankData :=
    { url := NUBANK_DATA_URL, data := data, timestamp := ts }
  match verifyWebProof webProof with
  | Except.error e =>
      { result := Except.error e
        progress := [(0, "Iniciando VLayer..."), (10, "Criando WebProof..."),
                     (20, "Verificando WebProof...")]
        proofCalls := 0, proofInputsList := [] }
  | Except.ok web =>
    let prog3 : List (ℚ × String) :=
      [(0, "Iniciando VLayer..."), (10, "Criando WebProof..."),
       (20, "Verificando WebProof..."), (30, "Extraindo dados bancários...")]
    match data.accounts with
    | [] =>
        { result := Except.error VError.noAccountsFound
          progress := prog3, proofCalls := 0, proofInputsList := [] }
    | a :: rest =>
      let selectedAccount := selAux a rest
      let prog4 := prog3 ++ [(40, "Selecionando conta...")]
      let balanceBRL := selectedAccount.balance
      let prog5 := prog4 ++ [(50, "Convertendo saldo...")]
      let balanceInWLD := convertBRLToWLD balanceBRL defaultRate
      if balanceInWLD < threshold then
        { result := Except.error (VError.insufficientBalance threshold balanceInWLD)
          progress := prog5, proofCalls := 0, proofInputsList := [] }
      else
        let prog7 := prog5 ++ [(60, "Gerando nonce..."), (70, "Preparando prova ZK...")]
        let proofInputs : ProofInputs :=
          { threshold := microOf threshold, nonce := nonce
            balance := microOf balanceInWLD, secret_nonce := nonce }
        let prog8 := prog7 ++ [(70, "Gerando prova zero-knowledge...")]
        let mapped := sub.map (fun pr => (70 + pr.1 * (3 / 10), pr.2))
        let proof := generateProof proofInputs
        let prog9 := prog8 ++ mapped
        if proof.isValid = false then
          { result := Except.error VError.proofInvalid
            progress := prog9, proofCalls := 1, proofInputsList := [proofInputs] }
        else
          { result := Except.ok
              { webProof := webProof, web := web, bankData := data
                selectedAccount := selectedAccount, proof := proof
                threshold := threshold, balance := balanceInWLD }
            progress := prog9 ++ [(100, "Prova gerada com sucesso!")]
            proofCalls := 1, proofInputsList := [proofInputs] }

/-- Percent components of the progress events of a run. -/
def percentsOf (r : PipelineRun) : List ℚ := r.progress.map Prod.fst

/-- The bank data inside a successful result, if any. -/
def runBankData (r : PipelineRun) : Option NubankBankData :=
  match r.result with
  | Except.ok v => some v.bankData
  | Except.error _ => none

/-- The WLD balance inside a successful result, if any. -/
def runBalance (r : PipelineRun) : Option ℚ :=
  match r.result with
  | Except.ok v => some v.balance
  | Except.error _ => none

/-- The selected account inside a successful result, if any. -/
def runSelected (r : PipelineRun) : Option NubankAccount :=
  match r.result with
  | Except.ok v => some v.selectedAccount
  | Except.error _ => none

/-- Whether the run terminated successfully with a valid proof. -/
def runIsValid (r : PipelineRun) : Bool :=
  match r.result with
  | Except.ok v => v.proof.isValid
  | Except.error _ => false

/-- JSON values, modelling the parsed `any` payloads that the JSON
accessors of vlayer.ts walk over. -/
inductive Json where
  | null
  | bool (b : Bool)
  | num (q : ℚ)
  | str (s : String)
  | arr (elems : List Json)
  | obj (fields : List (String × Json))

/-- One step of the JavaScript property access `value[key]`: a field
lookup on an object, `none` (JavaScript `undefined`) on everything
else.  Prototype-chain properties of primitives are not modelled. -/
def jsGet (j : Json) (key : String) : Option Json :=
  match j with
  | Json.obj fields => fields.lookup key
  | _ => none

/-- The loop of `jsonGetString` and `jsonGetNumber` (vlayer.ts lines
133-138 and 154-159): walk the split path segment by segment, failing
as soon as a lookup yields `undefined`. -/
def walkSegments (j : Json) (keys : List String) : Option Json :=
  keys.foldl (fun acc key => acc.bind (fun v => jsGet v key)) (some j)

/-- Reference resolution of a dot-path, written as direct recursion:
the value at the path exists exactly when every segment in turn is
present.  Used to state the accessor claims against `walkSegments`. -/
def resolvePath (j : Json) : List String → Option Json
  | [] => some j
  | key :: keys =>
      match jsGet j key with
      | none => none
      | some v => resolvePath v keys

/-- JavaScript numeric parsing of a string, abstracted: the empty
string converts to 0, a digit string to its value, anything else to
NaN (modelled as `none`). -/
def strToNumber (s : String) : Option ℚ :=
  if s = "" then some 0
  else match s.toNat? with
       | some n => some (n : ℚ)
       | none => none

/-- JavaScript `String(value)` coercion, abstracted: primitives print
their value, arrays join their elements with commas, objects print as
"[object Object]". -/
def jsToString : Json → String
  | Json.null => "null"
  | Json.bool true => "true"
  | Json.bool false => "false"
  | Json.num q => toString q
  | Json.str s => s
  | Json.arr elems => String.intercalate "," (elems.attach.map (fun e => jsToString e.1))
  | Json.obj _ => "[object Object]"
decreasing_by
  have h := List.sizeOf_lt_of_mem e.2
  simp only [Json.arr.sizeOf_spec]
  omega

/-- JavaScript `Number(value)` coercion, abstracted: `null` is 0,
booleans are 0 or 1, numbers are themselves, strings parse via
`strToNumber`, arrays and objects are NaN (`none`). -/
def jsToNumber : Json → Option ℚ
  | Json.null => some 0
  | Json.bool b => some (if b then 1 else 0)
  | Json.num q => some q
  | Json.str s => strToNumber s
  | Json.arr _ => none
  | Json.obj _ => none

/-- Splitting a character list at every dot, modelling the JavaScript
`path.split('.')` of the accessors (a platform builtin): the empty
string splits to one empty segment, a leading dot yields an empty
first segment, and so on. -/
def splitDots : List Char → List String
  | [] => [""]
  | c :: cs =>
      let ws := splitDots cs
      if c = '.' then "" :: ws
      else String.mk (c :: (ws.headD "").data) :: ws.tail

/-- JavaScript `path.split('.')` on a string. -/
def splitPath (s : String) : List String := splitDots s.data

/-- Embedding of `jsonGetString` (vlayer.ts lines 128-144): split the
path on dots, walk the segments, throw the path-not-found error if a
segment is absent, otherwise return the `String(...)` coercion of the
value found. -/
def jsonGetString (json : Json) (path : String) : Except VError String :=
  match walkSegments json (splitPath path) with
  | none => Except.error (VError.pathNotFound path)
  | some v => Except.ok (jsToString v)

/-- Embedding of `jsonGetNumber` (vlayer.ts lines 149-165): identical
walk, but the found value is returned under the `Number(...)` coercion
(NaN modelled as `none`). -/
def jsonGetNumber (json : Json) (path : String) : Except VError (Option ℚ) :=
  match walkSegments json (splitPath path) with
  | none => Except.error (VError.pathNotFound path)
  | some v => Except.ok (jsToNumber v)


/-- Characterization of the selection fold: `selAux a l` is an element
of `a :: l` whose balance is maximal, and every element strictly before
it has a strictly smaller balance (so it is the first element attaining
the maximum). -/
theorem selAux_first_max (l : List NubankAccount) (a : NubankAccount) :
    ∃ i : ℕ, (a :: l)[i]? = some (selAux a l) ∧
      (∀ y ∈ a :: l, y.balance ≤ (selAux a l).balance) ∧
      (∀ j : ℕ, j < i → ∀ y, (a :: l)[j]? = some y → y.balance < (selAux a l).balance) := by
  induction l generalizing a with
  | nil =>
      refine ⟨(0 : ℕ), ?_, ?_, ?_⟩
      · simp [selAux]
      · intro y hy
        simp only [List.mem_singleton] at hy
        simp [hy, selAux]
      · intro j hj
        omega
  | cons b t ih =>
      by_cases hb : b.balance > a.balance
      · have hsel : selAux a (b :: t) = selAux b t := by
          simp [selAux, hb]
        obtain ⟨i', h1, h2, h3⟩ := ih b
        refine ⟨i' + 1, ?_, ?_, ?_⟩
        · rw [hsel]
          simpa using h1
        · intro y hy
          have hbsel : b.balance ≤ (selAux b t).balance := h2 b (List.mem_cons_self b t)
          rcases List.mem_cons.1 hy with hy | hy
          · rw [hsel, hy]
            exact le_of_lt (lt_of_lt_of_le hb hbsel)
          · rw [hsel]
            exact h2 y hy
        · intro j hj y hy
          have hbsel : b.balance ≤ (selAux b t).balance := h2 b (List.mem_cons_self b t)
          match j with
          | 0 =>
              simp only [List.getElem?_cons_zero, Option.some.injEq] at hy
              rw [hsel, ← hy]
              exact lt_of_lt_of_le hb hbsel
          | k + 1 =>
              simp only [List.getElem?_cons_succ] at hy
              rw [hsel]
              exact h3 k (by omega) y hy
      · have hba : b.balance ≤ a.balance := le_of_not_lt hb
        have hsel : selAux a (b :: t) = selAux a t := by
          simp [selAux, hb]
        obtain ⟨i', h1, h2, h3⟩ := ih a
        match i', h1 with
        | 0, h1 =>
            simp only [List.getElem?_cons_zero, Option.some.injEq] at h1
            refine ⟨(0 : ℕ), ?_, ?_, ?_⟩
            · rw [hsel]
              simp [← h1]
            · intro y hy
              rcases List.mem_cons.1 hy with hy | hy
              · rw [hsel, hy, ← h1]
              · rcases List.mem_cons.1 hy with hy | hy
                · rw [hsel, hy, ← h1]
                  exact hba
                · rw [hsel]
                  exact h2 y (List.mem_cons_of_mem a hy)
            · intro j hj
              omega
        | k + 1, h1 =>
            simp only [List.getElem?_cons_succ] at h1
            refine ⟨k + 2, ?_, ?_, ?_⟩
            · rw [hsel]
              simpa using h1
            · intro y hy
              rcases List.mem_cons.1 hy with hy | hy
              · rw [hsel, hy]
                exact h2 a (List.mem_cons_self a t)
              · rcases List.mem_cons.1 hy with hy | hy
                · rw [hsel, hy]
                  exact le_trans hba (h2 a (List.mem_cons_self a t))
                · rw [hsel]
                  exact h2 y (List.mem_cons_of_mem a hy)
            · intro j hj y hy
              have ha_lt : a.balance < (selAux a t).balance :=
                h3 0 (by omega) a (by simp)
              match j with
              | 0 =>
                  simp only [List.getElem?_cons_zero, Option.some.injEq] at hy
                  rw [hsel, ← hy]
                  exact ha_lt
              | 1 =>
                  simp only [List.getElem?_cons_succ, List.getElem?_cons_zero,
                    Option.some.injEq] at hy
                  rw [hsel, ← hy]
                  exact lt_of_le_of_lt hba ha_lt
              | m + 2 =>
                  simp only [List.getElem?_cons_succ] at hy
                  rw [hsel]
                  exact h3 (m + 1) (by omega) y (by simpa using hy)

/-- Scaling to micro-units is monotone: the floor of `q * 1e6` respects
the order of the unscaled values. -/
theorem microOf_mono {x y : ℚ} (h : x ≤ y) : microOf x ≤ microOf y :=
  Int.floor_le_floor (mul_le_mul_of_nonneg_right h (by norm_num))

/-- Evaluation of the pipeline on an empty accounts list: it aborts
with the no-accounts error after the 30 percent checkpoint and the
proof capability is never invoked. -/
theorem pipeline_empty (t : ℚ) (bk : BankInfo) (ts n : ℕ) (sub : List (ℚ × String)) :
    vlayerGenerateProof t ⟨bk, []⟩ ts n sub =
      { result := Except.error VError.noAccountsFound
        progress := [(0, "Iniciando VLayer..."), (10, "Criando WebProof..."),
                     (20, "Verificando WebProof..."), (30, "Extraindo dados bancários...")]
        proofCalls := 0, proofInputsList := [] } := rfl

/-- Evaluation of the pipeline when the converted balance of the
selected account is below the threshold: it aborts with the
insufficient-balance error carrying the threshold and the available
WLD balance, after the 50 percent checkpoint, and the proof capability
is never invoked. -/
theorem pipeline_insufficient (t : ℚ) (bk : BankInfo) (a : NubankAccount)
    (rest : List NubankAccount) (ts n : ℕ) (sub : List (ℚ × String))
    (h : convertBRLToWLD (selAux a rest).balance defaultRate < t) :
    vlayerGenerateProof t ⟨bk, a :: rest⟩ ts n sub =
      { result := Except.error (VError.insufficientBalance t
          (convertBRLToWLD (selAux a rest).balance defaultRate))
        progress := [(0, "Iniciando VLayer..."), (10, "Criando WebProof..."),
                     (20, "Verificando WebProof..."), (30, "Extraindo dados bancários..."),
                     (40, "Selecionando conta..."), (50, "Convertendo saldo...")]
        proofCalls := 0, proofInputsList := [] } := by
  simp only [vlayerGenerateProof, verifyWebProof]
  rw [if_pos h]
  simp

/-- Evaluation of the pipeline when the converted balance of the
selected account reaches the threshold: the run succeeds, the proof
capability is invoked exactly once on the floor-scaled inputs with the
nonce in both nonce fields, the sub-progress of the proof capability is
remapped by seventy plus three tenths, and the full `VLayerResult` is
returned. -/
theorem pipeline_success (t : ℚ) (bk : BankInfo) (a : NubankAccount)
    (rest : List NubankAccount) (ts n : ℕ) (sub : List (ℚ × String))
    (h : t ≤ convertBRLToWLD (selAux a rest).balance defaultRate) :
    vlayerGenerateProof t ⟨bk, a :: rest⟩ ts n sub =
      { result := Except.ok
          { webProof := ⟨NUBANK_DATA_URL, ⟨bk, a :: rest⟩, ts⟩
            web := ⟨NUBANK_DATA_URL, ⟨bk, a :: rest⟩, ⟨bk, a :: rest⟩⟩
            bankData := ⟨bk, a :: rest⟩
            selectedAccount := selAux a rest
            proof := ⟨true, [], microOf t, n⟩
            threshold := t
            balance := convertBRLToWLD (selAux a rest).balance defaultRate }
        progress := [(0, "Iniciando VLayer..."), (10, "Criando WebProof..."),
                     (20, "Verificando WebProof..."), (30, "Extraindo dados bancários..."),
                     (40, "Selecionando conta..."), (50, "Convertendo saldo..."),
                     (60, "Gerando nonce..."), (70, "Preparando prova ZK..."),
                     (70, "Gerando prova zero-knowledge...")]
            ++ sub.map (fun pr => (70 + pr.1 * (3 / 10), pr.2))
            ++ [(100, "Prova gerada com sucesso!")]
        proofCalls := 1
        proofInputsList := [⟨microOf t, n,
          microOf (convertBRLToWLD (selAux a rest).balance defaultRate), n⟩] } := by
  have hm : microOf t ≤ microOf (convertBRLToWLD (selAux a rest).balance defaultRate) :=
    microOf_mono h
  simp only [vlayerGenerateProof, verifyWebProof, generateProof]
  rw [if_neg (not_lt.2 h)]
  simp [hm]

/-- C6: for every view whose accounts list is non-empty, account
selection returns the first account in source order whose balance
equals the maximum balance in the list (ties broken by first
occurrence); for a view with zero account records the pipeline signals
the no-accounts error instead of returning a record. -/
theorem claim6_select_first_max :
    selectAccount [] = none ∧
    (∀ (t : ℚ) (data : NubankBankData) (ts n : ℕ) (sub : List (ℚ × String)),
      data.accounts = [] →
      (vlayerGenerateProof t data ts n sub).result = Except.error VError.noAccountsFound) ∧
    (∀ l : List NubankAccount, l ≠ [] →
      ∃ c, selectAccount l = some c ∧
        ∃ i : ℕ, l[i]? = some c ∧ (∀ y ∈ l, y.balance ≤ c.balance) ∧
          (∀ j : ℕ, j < i → ∀ y, l[j]? = some y → y.balance < c.balance)) := by
  refine ⟨rfl, ?_, ?_⟩
  · rintro t ⟨bk, accounts⟩ ts n sub h
    simp only at h
    subst h
    rw [pipeline_empty]
  · intro l hl
    match l with
    | [] => exact absurd rfl hl
    | a :: rest =>
        obtain ⟨i, h1, h2, h3⟩ := selAux_first_max rest a
        exact ⟨selAux a rest, rfl, i, h1, h2, h3⟩

/-- Witness for C6 at concrete inputs: an empty view aborts with the
no-accounts error, and on the mocked two-account list the selection
facts hold. -/
theorem claim6_witness :
    (vlayerGenerateProof 5 ⟨⟨"nubank", "Nubank", "260"⟩, []⟩ 0 0 []).result =
      Except.error VError.noAccountsFound ∧
    (∃ c, selectAccount mockNubankResponse.accounts = some c ∧
      ∃ i : ℕ, mockNubankResponse.accounts[i]? = some c ∧
        (∀ y ∈ mockNubankResponse.accounts, y.balance ≤ c.balance) ∧
        (∀ j : ℕ, j < i → ∀ y, mockNubankResponse.accounts[j]? = some y →
          y.balance < c.balance)) :=
  ⟨claim6_select_first_max.2.1 5 ⟨⟨"nubank", "Nubank", "260"⟩, []⟩ 0 0 [] rfl,
   claim6_select_first_max.2.2 mockNubankResponse.accounts (by simp [mockNubankResponse])⟩

/-- C10: in every attestation attempt the proof inputs handed to the
proof capability satisfy that the private blinding field equals the
public nonce, and both equal the single value obtained from the nonce
generator. -/
theorem claim10_nonce_equals_blinding :
    ∀ (t : ℚ) (data : NubankBankData) (ts n : ℕ) (sub : List (ℚ × String)),
      ∀ pi ∈ (vlayerGenerateProof t data ts n sub).proofInputsList,
        pi.secret_nonce = pi.nonce ∧ pi.nonce = n := by
  rintro t ⟨bk, _ | ⟨a, rest⟩⟩ ts n sub pi hpi
  · rw [pipeline_empty] at hpi
    simp at hpi
  · by_cases hlt : convertBRLToWLD (selAux a rest).balance defaultRate < t
    · rw [pipeline_insufficient t bk a rest ts n sub hlt] at hpi
      simp at hpi
    · rw [pipeline_success t bk a rest ts n sub (not_lt.1 hlt)] at hpi
      simp only [List.mem_singleton] at hpi
      subst hpi
      exact ⟨rfl, rfl⟩

/-- Witness for C10: the single proof invocation of a concrete
successful run has its blinding field equal to the nonce 42. -/
theorem claim10_witness :
    (⟨1000000, 42, 2250090000, 42⟩ : ProofInputs).secret_nonce =
      (⟨1000000, 42, 2250090000, 42⟩ : ProofInputs).nonce ∧
    (⟨1000000, 42, 2250090000, 42⟩ : ProofInputs).nonce = 42 :=
  claim10_nonce_equals_blinding 1 mockNubankResponse 0 42 []
    ⟨1000000, 42, 2250090000, 42⟩
    (by norm_num [vlayerGenerateProof, verifyWebProof, mockNubankResponse, selAux,
      convertBRLToWLD, defaultRate, microOf, generateProof])

/-- C3: whenever the balance-versus-threshold comparison fails, the
pipeline aborts with the insufficient-balance error carrying the
required and available amounts, and proof synthesis is never invoked
in that run (its call count is zero). -/
theorem claim3_insufficient_aborts :
    ∀ (t : ℚ) (data : NubankBankData) (ts n : ℕ) (sub : List (ℚ × String))
      (acc : NubankAccount),
      selectAccount data.accounts = some acc →
      convertBRLToWLD acc.balance defaultRate < t →
      (vlayerGenerateProof t data ts n sub).result =
        Except.error (VError.insufficientBalance t
          (convertBRLToWLD acc.balance defaultRate)) ∧
      (vlayerGenerateProof t data ts n sub).proofCalls = 0 := by
  rintro t ⟨bk, _ | ⟨a, rest⟩⟩ ts n sub acc hsel hlt
  · simp [selectAccount] at hsel
  · simp only [selectAccount, Option.some.injEq] at hsel
    subst hsel
    rw [pipeline_insufficient t bk a rest ts n sub hlt]
    exact ⟨rfl, rfl⟩

/-- Witness for C3: with threshold 3000 WLD against the mocked data
(best account 12500.50 BRL, hence 2250.09 WLD) the run aborts with the
insufficient-balance error and the proof capability is never called. -/
theorem claim3_witness :
    (vlayerGenerateProof 3000 mockNubankResponse 0 42 []).result =
      Except.error (VError.insufficientBalance 3000
        (convertBRLToWLD (1250050 / 100) defaultRate)) ∧
    (vlayerGenerateProof 3000 mockNubankResponse 0 42 []).proofCalls = 0 :=
  claim3_insufficient_aborts 3000 mockNubankResponse 0 42 []
    ⟨"acc-002", "NuConta", AccountType.savings, 1250050 / 100, "BRL"⟩
    (by norm_num [selectAccount, selAux, mockNubankResponse])
    (by norm_num [convertBRLToWLD, defaultRate])

/-- Counterexample to C1: on a concrete successful run the value
returned to the caller contains the raw bank data, the selected
account record, and the WLD balance — not only the validity flag,
proof bytes and public inputs. -/
theorem claim1_counterexample :
    runBankData (vlayerGenerateProof 1 mockNubankResponse 0 42 []) =
      some mockNubankResponse ∧
    runSelected (vlayerGenerateProof 1 mockNubankResponse 0 42 []) =
      some ⟨"acc-002", "NuConta", AccountType.savings, 1250050 / 100, "BRL"⟩ ∧
    runBalance (vlayerGenerateProof 1 mockNubankResponse 0 42 []) =
      some (225009 / 100) := by
  norm_num [vlayerGenerateProof, verifyWebProof, mockNubankResponse, selAux,
    convertBRLToWLD, defaultRate, microOf, generateProof,
    runBankData, runSelected, runBalance]

/-- C1 as amended: every successful run returns the full
`VLayerResult`, which exposes — alongside the proof and its public
inputs — the raw bank data unchanged, the selected account record, the
threshold, and the converted WLD balance of the selected account. -/
theorem claim1_amended_result_contents :
    ∀ (t : ℚ) (data : NubankBankData) (ts n : ℕ) (sub : List (ℚ × String))
      (r : VLayerResult),
      (vlayerGenerateProof t data ts n sub).result = Except.ok r →
      r.bankData = data ∧
      selectAccount data.accounts = some r.selectedAccount ∧
      r.balance = convertBRLToWLD r.selectedAccount.balance defaultRate ∧
      r.threshold = t ∧
      r.proof.isValid = true := by
  rintro t ⟨bk, _ | ⟨a, rest⟩⟩ ts n sub r hr
  · rw [pipeline_empty] at hr
    simp at hr
  · by_cases hlt : convertBRLToWLD (selAux a rest).balance defaultRate < t
    · rw [pipeline_insufficient t bk a rest ts n sub hlt] at hr
      simp at hr
    · rw [pipeline_success t bk a rest ts n sub (not_lt.1 hlt)] at hr
      simp only [Except.ok.injEq] at hr
      subst hr
      exact ⟨rfl, rfl, rfl, rfl, rfl⟩

/-- Witness for the amended C1 at a concrete successful run. -/
theorem claim1_witness :
    let r : VLayerResult :=
      { webProof := ⟨NUBANK_DATA_URL, mockNubankResponse, 0⟩
        web := ⟨NUBANK_DATA_URL, mockNubankResponse, mockNubankResponse⟩
        bankData := mockNubankResponse
        selectedAccount := ⟨"acc-002", "NuConta", AccountType.savings, 1250050 / 100, "BRL"⟩
        proof := ⟨true, [], 1000000, 42⟩
        threshold := 1
        balance := 225009 / 100 }
    r.bankData = mockNubankResponse ∧
    selectAccount mockNubankResponse.accounts = some r.selectedAccount ∧
    r.balance = convertBRLToWLD r.selectedAccount.balance defaultRate ∧
    r.threshold = 1 ∧
    r.proof.isValid = true :=
  claim1_amended_result_contents 1 mockNubankResponse 0 42 [] _
    (by norm_num [vlayerGenerateProof, verifyWebProof, mockNubankResponse, selAux,
      convertBRLToWLD, defaultRate, microOf, generateProof, NUBANK_DATA_URL])

/-- Counterexample to C2: a threshold and a source balance for which
the post-normalization micro-balance is at least the
post-normalization micro-threshold, yet the attestation does not yield
a valid result — the pipeline aborts at the (pre-normalization)
comparison without ever invoking the proof capability. -/
theorem claim2_counterexample :
    microOf (2000001 / 2000000) ≤
      microOf (convertBRLToWLD (4000001 / 720000) defaultRate) ∧
    runIsValid (vlayerGenerateProof (2000001 / 2000000)
      ⟨⟨"nubank", "Nubank", "260"⟩,
        [⟨"a1", "x", AccountType.checking, 4000001 / 720000, "BRL"⟩]⟩ 0 0 []) = false ∧
    (vlayerGenerateProof (2000001 / 2000000)
      ⟨⟨"nubank", "Nubank", "260"⟩,
        [⟨"a1", "x", AccountType.checking, 4000001 / 720000, "BRL"⟩]⟩ 0 0 []).proofCalls
      = 0 := by
  norm_num [vlayerGenerateProof, verifyWebProof, selAux, convertBRLToWLD,
    defaultRate, microOf, generateProof, runIsValid]

/-- C2 as amended: the attestation yields a valid result exactly when
the pre-normalization decimal WLD balance reaches the decimal
threshold (the source compares before scaling); since that comparison
implies the micro-unit comparison, the attestation still never yields
a valid result when the post-normalization balance is below the
post-normalization threshold. -/
theorem claim2_amended_validity :
    ∀ (t : ℚ) (data : NubankBankData) (ts n : ℕ) (sub : List (ℚ × String))
      (acc : NubankAccount),
      selectAccount data.accounts = some acc →
      (runIsValid (vlayerGenerateProof t data ts n sub) = true ↔
        t ≤ convertBRLToWLD acc.balance defaultRate) ∧
      (runIsValid (vlayerGenerateProof t data ts n sub) = true →
        microOf t ≤ microOf (convertBRLToWLD acc.balance defaultRate)) := by
  rintro t ⟨bk, _ | ⟨a, rest⟩⟩ ts n sub acc hsel
  · simp [selectAccount] at hsel
  · simp only [selectAccount, Option.some.injEq] at hsel
    subst hsel
    by_cases hlt : convertBRLToWLD (selAux a rest).balance defaultRate < t
    · rw [pipeline_insufficient t bk a rest ts n sub hlt]
      constructor
      · simp only [runIsValid]
        exact ⟨fun h => by simp at h, fun h => absurd hlt (not_lt.2 h)⟩
      · intro h
        simp [runIsValid] at h
    · have hle := not_lt.1 hlt
      rw [pipeline_success t bk a rest ts n sub hle]
      exact ⟨⟨fun _ => hle, fun _ => rfl⟩, fun _ => microOf_mono hle⟩

/-- Witness for the amended C2 at a concrete run: with threshold 1 WLD
and the mocked data the run is valid, matching the decimal comparison,
and the micro-unit comparison follows. -/
theorem claim2_witness :
    (runIsValid (vlayerGenerateProof 1 mockNubankResponse 0 42 []) = true ↔
      (1 : ℚ) ≤ convertBRLToWLD (1250050 / 100) defaultRate) ∧
    (runIsValid (vlayerGenerateProof 1 mockNubankResponse 0 42 []) = true →
      microOf 1 ≤ microOf (convertBRLToWLD (1250050 / 100) defaultRate)) :=
  claim2_amended_validity 1 mockNubankResponse 0 42 []
    ⟨"acc-002", "NuConta", AccountType.savings, 1250050 / 100, "BRL"⟩
    (by norm_num [selectAccount, selAux, mockNubankResponse])

/-- C5: normalization truncates rather than rounds: the conversion
composed with micro-scaling is the floor of balance times rate times
ten to the six; on the concrete input 10.999999 at rate 1 it yields
10999999, never 11000000; and the balance fed to every proof
invocation of the pipeline is exactly that floor (at the pipeline's
default rate), with the threshold scaled by the same floor. -/
theorem claim5_floor_truncation :
    (∀ b r : ℚ, microOf (convertBRLToWLD b r) = ⌊b * r * 1000000⌋) ∧
    microOf (convertBRLToWLD (10999999 / 1000000) 1) = 10999999 ∧
    (∀ (t : ℚ) (data : NubankBankData) (ts n : ℕ) (sub : List (ℚ × String))
      (acc : NubankAccount),
      selectAccount data.accounts = some acc →
      ∀ pi ∈ (vlayerGenerateProof t data ts n sub).proofInputsList,
        pi.balance = ⌊acc.balance * defaultRate * 1000000⌋ ∧
        pi.threshold = ⌊t * 1000000⌋) := by
  refine ⟨fun b r => rfl, by norm_num [microOf, convertBRLToWLD], ?_⟩
  rintro t ⟨bk, _ | ⟨a, rest⟩⟩ ts n sub acc hsel pi hpi
  · simp [selectAccount] at hsel
  · simp only [selectAccount, Option.some.injEq] at hsel
    subst hsel
    by_cases hlt : convertBRLToWLD (selAux a rest).balance defaultRate < t
    · rw [pipeline_insufficient t bk a rest ts n sub hlt] at hpi
      simp at hpi
    · rw [pipeline_success t bk a rest ts n sub (not_lt.1 hlt)] at hpi
      simp only [List.mem_singleton] at hpi
      subst hpi
      exact ⟨rfl, rfl⟩

/-- Witness for C5: the proof invocation of a concrete successful run
carries exactly the floored micro-amounts. -/
theorem claim5_witness :
    (⟨1000000, 42, 2250090000, 42⟩ : ProofInputs).balance =
      ⌊(1250050 / 100 : ℚ) * defaultRate * 1000000⌋ ∧
    (⟨1000000, 42, 2250090000, 42⟩ : ProofInputs).threshold =
      ⌊(1 : ℚ) * 1000000⌋ :=
  claim5_floor_truncation.2.2 1 mockNubankResponse 0 42 []
    ⟨"acc-002", "NuConta", AccountType.savings, 1250050 / 100, "BRL"⟩
    (by norm_num [selectAccount, selAux, mockNubankResponse])
    ⟨1000000, 42, 2250090000, 42⟩
    (by norm_num [vlayerGenerateProof, verifyWebProof, mockNubankResponse, selAux,
      convertBRLToWLD, defaultRate, microOf, generateProof])

/-- Counterexample to C9: a concrete run whose selected account has a
negative balance (minus 10 BRL, hence minus 1.8 WLD) reaches proof
synthesis — with a negative threshold the comparison passes, the proof
capability is invoked once with a negative micro-balance, and the
attestation even succeeds; no negative-balance error is ever
signalled. -/
theorem claim9_counterexample :
    (vlayerGenerateProof (-100)
      ⟨⟨"nubank", "Nubank", "260"⟩,
        [⟨"n1", "neg", AccountType.checking, -10, "BRL"⟩]⟩ 0 7 []).proofCalls = 1 ∧
    (vlayerGenerateProof (-100)
      ⟨⟨"nubank", "Nubank", "260"⟩,
        [⟨"n1", "neg", AccountType.checking, -10, "BRL"⟩]⟩ 0 7 []).proofInputsList =
      [⟨-100000000, 7, -1800000, 7⟩] ∧
    ((-1800000 : ℤ) < 0) ∧
    runIsValid (vlayerGenerateProof (-100)
      ⟨⟨"nubank", "Nubank", "260"⟩,
        [⟨"n1", "neg", AccountType.checking, -10, "BRL"⟩]⟩ 0 7 []) = true := by
  norm_num [vlayerGenerateProof, verifyWebProof, selAux, convertBRLToWLD,
    defaultRate, microOf, generateProof, runIsValid]

/-- C9 as amended: the source has no negative-balance check.  When the
selected account's converted balance is negative, the pipeline aborts
with the generic insufficient-balance error exactly when that balance
is below the threshold, and when the threshold is less than or equal
to the (negative) balance the pipeline proceeds to proof synthesis
with a negative micro-balance input. -/
theorem claim9_amended_no_negative_check :
    ∀ (t : ℚ) (data : NubankBankData) (ts n : ℕ) (sub : List (ℚ × String))
      (acc : NubankAccount),
      selectAccount data.accounts = some acc →
      convertBRLToWLD acc.balance defaultRate < 0 →
      (convertBRLToWLD acc.balance defaultRate < t →
        (vlayerGenerateProof t data ts n sub).result =
          Except.error (VError.insufficientBalance t
            (convertBRLToWLD acc.balance defaultRate)) ∧
        (vlayerGenerateProof t data ts n sub).proofCalls = 0) ∧
      (t ≤ convertBRLToWLD acc.balance defaultRate →
        (vlayerGenerateProof t data ts n sub).proofCalls = 1 ∧
        ∀ pi ∈ (vlayerGenerateProof t data ts n sub).proofInputsList,
          pi.balance < 0) := by
  rintro t ⟨bk, _ | ⟨a, rest⟩⟩ ts n sub acc hsel hneg
  · simp [selectAccount] at hsel
  · simp only [selectAccount, Option.some.injEq] at hsel
    subst hsel
    constructor
    · intro hlt
      rw [pipeline_insufficient t bk a rest ts n sub hlt]
      exact ⟨rfl, rfl⟩
    · intro hle
      rw [pipeline_success t bk a rest ts n sub hle]
      refine ⟨rfl, ?_⟩
      intro pi hpi
      simp only [List.mem_singleton] at hpi
      subst hpi
      show microOf (convertBRLToWLD (selAux a rest).balance defaultRate) < 0
      have hmul : convertBRLToWLD (selAux a rest).balance defaultRate * 1000000 < 0 :=
        mul_neg_of_neg_of_pos hneg (by norm_num)
      exact Int.floor_lt.2 (by exact_mod_cast hmul)

/-- Witness for the amended C9: both branches instantiated on the
concrete negative-balance account (minus 10 BRL): with threshold 0 the
run aborts with the insufficient-balance error, and with threshold
minus 100 the proof capability is invoked on a negative balance. -/
theorem claim9_witness :
    ((vlayerGenerateProof 0
        ⟨⟨"nubank", "Nubank", "260"⟩,
          [⟨"n1", "neg", AccountType.checking, -10, "BRL"⟩]⟩ 0 7 []).result =
      Except.error (VError.insufficientBalance 0
        (convertBRLToWLD (-10) defaultRate)) ∧
     (vlayerGenerateProof 0
        ⟨⟨"nubank", "Nubank", "260"⟩,
          [⟨"n1", "neg", AccountType.checking, -10, "BRL"⟩]⟩ 0 7 []).proofCalls = 0) ∧
    ((vlayerGenerateProof (-100)
        ⟨⟨"nubank", "Nubank", "260"⟩,
          [⟨"n1", "neg", AccountType.checking, -10, "BRL"⟩]⟩ 0 7 []).proofCalls = 1 ∧
     ∀ pi ∈ (vlayerGenerateProof (-100)
        ⟨⟨"nubank", "Nubank", "260"⟩,
          [⟨"n1", "neg", AccountType.checking, -10, "BRL"⟩]⟩ 0 7 []).proofInputsList,
        pi.balance < 0) :=
  ⟨(claim9_amended_no_negative_check 0
      ⟨⟨"nubank", "Nubank", "260"⟩, [⟨"n1", "neg", AccountType.checking, -10, "BRL"⟩]⟩
      0 7 [] ⟨"n1", "neg", AccountType.checking, -10, "BRL"⟩
      (by norm_num [selectAccount, selAux])
      (by norm_num [convertBRLToWLD, defaultRate])).1
    (by norm_num [convertBRLToWLD, defaultRate]),
   (claim9_amended_no_negative_check (-100)
      ⟨⟨"nubank", "Nubank", "260"⟩, [⟨"n1", "neg", AccountType.checking, -10, "BRL"⟩]⟩
      0 7 [] ⟨"n1", "neg", AccountType.checking, -10, "BRL"⟩
      (by norm_num [selectAccount, selAux])
      (by norm_num [convertBRLToWLD, defaultRate])).2
    (by norm_num [convertBRLToWLD, defaultRate])⟩

/-- C4 as amended: over one run of the pipeline the sequence of
percent values emitted to the progress sink is non-decreasing — not
strictly increasing, since 70 is emitted twice in a row at the
proof-preparation/synthesis boundary — provided the proof capability's
forwarded sub-progress is itself within 0..100 and non-decreasing; on
a successful run the sequence ends at exactly 100, and on an aborted
run it never reaches 100. -/
theorem claim4_amended_progress :
    ∀ (t : ℚ) (data : NubankBankData) (ts n : ℕ) (sub : List (ℚ × String)),
      (∀ q ∈ sub.map Prod.fst, 0 ≤ q ∧ q ≤ 100) →
      List.Chain' (fun x y : ℚ => x ≤ y) (sub.map Prod.fst) →
      List.Chain' (fun x y : ℚ => x ≤ y)
        (percentsOf (vlayerGenerateProof t data ts n sub)) ∧
      ((vlayerGenerateProof t data ts n sub).result.isOk = true →
        (percentsOf (vlayerGenerateProof t data ts n sub)).getLast? = some 100) ∧
      ((vlayerGenerateProof t data ts n sub).result.isOk = false →
        (100 : ℚ) ∉ percentsOf (vlayerGenerateProof t data ts n sub)) := by
  rintro t ⟨bk, _ | ⟨a, rest⟩⟩ ts n sub h0 hmono
  · rw [pipeline_empty]
    refine ⟨?_, ?_, ?_⟩
    · norm_num [percentsOf, List.chain'_cons]
    · intro h
      simp [Except.isOk, Except.toBool] at h
    · intro _
      norm_num [percentsOf]
  · by_cases hlt : convertBRLToWLD (selAux a rest).balance defaultRate < t
    · rw [pipeline_insufficient t bk a rest ts n sub hlt]
      refine ⟨?_, ?_, ?_⟩
      · norm_num [percentsOf, List.chain'_cons]
      · intro h
        simp [Except.isOk, Except.toBool] at h
      · intro _
        norm_num [percentsOf]
    · rw [pipeline_success t bk a rest ts n sub (not_lt.1 hlt)]
      have hMb : ∀ x ∈ (sub.map fun pr => (70 + pr.1 * (3 / 10), pr.2)).map Prod.fst,
          (70 : ℚ) ≤ x ∧ x ≤ 100 := by
        intro x hx
        simp only [List.map_map, List.mem_map, Function.comp] at hx
        obtain ⟨pr, hpr, rfl⟩ := hx
        obtain ⟨hq0, hq100⟩ := h0 pr.1 (List.mem_map_of_mem Prod.fst hpr)
        constructor
        · nlinarith
        · nlinarith
      have hMchain : List.Chain' (fun x y : ℚ => x ≤ y)
          ((sub.map fun pr => (70 + pr.1 * (3 / 10), pr.2)).map Prod.fst) := by
        rw [List.map_map, List.chain'_map]
        have := (List.chain'_map (Prod.fst : ℚ × String → ℚ)).1 hmono
        exact this.imp (fun x y hxy => by simp only [Function.comp]; nlinarith)
      refine ⟨?_, ?_, ?_⟩
      · simp only [percentsOf, List.map_append, List.append_assoc]
        apply List.Chain'.append
        · norm_num [List.chain'_cons]
        · apply List.Chain'.append hMchain
          · simp
          · intro x hx y hy
            simp only [List.map_cons, List.map_nil, List.head?_cons, Option.mem_def,
              Option.some.injEq] at hy
            subst hy
            exact (hMb x (List.mem_of_mem_getLast? hx)).2
        · intro x hx y hy
          simp only [List.map_cons, List.map_nil, List.getLast?_cons_cons,
            List.getLast?_singleton, Option.mem_def, Option.some.injEq] at hx
          subst hx
          cases sub with
          | nil =>
              simp only [List.map_nil, List.nil_append, List.map_cons,
                List.head?_cons, Option.mem_def, Option.some.injEq] at hy
              subst hy
              norm_num
          | cons s ss =>
              simp only [List.map_cons, List.cons_append, List.head?_cons,
                Option.mem_def, Option.some.injEq] at hy
              subst hy
              have := (h0 s.1 (by simp)).1
              nlinarith
      · intro _
        simp only [percentsOf, List.map_append, List.map_cons, List.map_nil]
        exact List.getLast?_concat _
      · intro h
        simp [Except.isOk, Except.toBool] at h

/-- Counterexample to C4: a concrete successful run (threshold 1 WLD,
mocked data, sub-progress 50 then 100 forwarded by the proof
capability) emits the percent sequence
0, 10, 20, 30, 40, 50, 60, 70, 70, 85, 100, 100, which is not strictly
increasing. -/
theorem claim4_counterexample :
    ¬ List.Chain' (fun x y : ℚ => x < y)
      (percentsOf (vlayerGenerateProof 1 mockNubankResponse 0 42 [(50, "a"), (100, "b")])) ∧
    (vlayerGenerateProof 1 mockNubankResponse 0 42 [(50, "a"), (100, "b")]).result.isOk
      = true := by
  have hev : percentsOf (vlayerGenerateProof 1 mockNubankResponse 0 42
      [(50, "a"), (100, "b")]) =
      [0, 10, 20, 30, 40, 50, 60, 70, 70, 85, 100, 100] := by
    norm_num [vlayerGenerateProof, verifyWebProof, mockNubankResponse, selAux,
      convertBRLToWLD, defaultRate, microOf, generateProof, percentsOf]
  constructor
  · rw [hev]
    intro h
    norm_num [List.chain'_cons] at h
  · norm_num [vlayerGenerateProof, verifyWebProof, mockNubankResponse, selAux,
      convertBRLToWLD, defaultRate, microOf, generateProof, Except.isOk, Except.toBool]

/-- Witness for the amended C4 at a concrete successful run with no
forwarded sub-progress. -/
theorem claim4_witness :
    List.Chain' (fun x y : ℚ => x ≤ y)
      (percentsOf (vlayerGenerateProof 1 mockNubankResponse 0 42 [])) ∧
    ((vlayerGenerateProof 1 mockNubankResponse 0 42 []).result.isOk = true →
      (percentsOf (vlayerGenerateProof 1 mockNubankResponse 0 42 [])).getLast? =
        some 100) ∧
    ((vlayerGenerateProof 1 mockNubankResponse 0 42 []).result.isOk = false →
      (100 : ℚ) ∉ percentsOf (vlayerGenerateProof 1 mockNubankResponse 0 42 [])) :=
  claim4_amended_progress 1 mockNubankResponse 0 42 [] (by simp) (by simp)

/-- Counterexample to C7: evidence whose raw payload is an unparsed
HTML error page — not well-formed structured bank data — is accepted
by the verifier, which succeeds and constructs a view carrying the
malformed payload unchanged, instead of failing. -/
theorem claim7_counterexample :
    verifyWebProof
      (⟨NUBANK_DATA_URL, "<html>service unavailable</html>", 0⟩ : WebProof String) =
      Except.ok ⟨NUBANK_DATA_URL, "<html>service unavailable</html>",
        "<html>service unavailable</html>"⟩ := rfl

/-- C7 as amended: the verifier performs no validation at all — for
every Evidence, well-formed or not, it succeeds and copies the raw
payload unchanged into both the data and json fields of the view; a
malformed-evidence failure is never signalled, so a view can be
constructed from a payload that never parsed. -/
theorem claim7_amended_no_validation :
    ∀ (α : Type) (wp : WebProof α),
      verifyWebProof wp = Except.ok ⟨wp.url, wp.data, wp.data⟩ :=
  fun _ _ => rfl

/-- The iterative walk of the accessors agrees with the recursive
resolution of a dot-path: the fold fails exactly when some segment is
absent along the way. -/
theorem walkSegments_eq_resolvePath (keys : List String) (j : Json) :
    walkSegments j keys = resolvePath j keys := by
  induction keys generalizing j with
  | nil => rfl
  | cons k ks ih =>
      have hstep : walkSegments j (k :: ks) =
          List.foldl (fun acc key => acc.bind (fun v => jsGet v key)) (jsGet j k) ks := rfl
      have hres : resolvePath j (k :: ks) =
          match jsGet j k with
          | none => none
          | some v => resolvePath v ks := rfl
      rw [hstep, hres]
      cases jsGet j k with
      | none =>
          show List.foldl (fun acc key => acc.bind (fun v => jsGet v key)) none ks = none
          clear hstep hres ih
          induction ks with
          | nil => rfl
          | cons k2 ks2 ih2 => simpa using ih2
      | some v => exact ih v

/-- C8: for every JSON value and dot-separated path, the two accessors
fail with the path-not-found error exactly when some segment of the
path is absent, and when every segment is present they return the
(coerced) value at the path, never a substituted default. -/
theorem claim8_accessors :
    ∀ (j : Json) (path : String),
      (jsonGetString j path = Except.error (VError.pathNotFound path) ↔
        resolvePath j (splitPath path) = none) ∧
      (jsonGetNumber j path = Except.error (VError.pathNotFound path) ↔
        resolvePath j (splitPath path) = none) ∧
      (∀ v, resolvePath j (splitPath path) = some v →
        jsonGetString j path = Except.ok (jsToString v) ∧
        jsonGetNumber j path = Except.ok (jsToNumber v)) := by
  intro j path
  have hw := walkSegments_eq_resolvePath (splitPath path) j
  refine ⟨?_, ?_, ?_⟩
  · unfold jsonGetString
    rw [hw]
    cases resolvePath j (splitPath path) with
    | none => simp
    | some v => simp
  · unfold jsonGetNumber
    rw [hw]
    cases resolvePath j (splitPath path) with
    | none => simp
    | some v => simp
  · intro v hv
    unfold jsonGetString jsonGetNumber
    rw [hw, hv]
    exact ⟨rfl, rfl⟩

/-- Witness for C8 on a concrete object and path: the accessors return
the value found at the path bank.name. -/
theorem claim8_witness :
    jsonGetString
      (Json.obj [("bank", Json.obj [("name", Json.str "Nubank")])]) "bank.name" =
      Except.ok (jsToString (Json.str "Nubank")) ∧
    jsonGetNumber
      (Json.obj [("bank", Json.obj [("name", Json.str "Nubank")])]) "bank.name" =
      Except.ok (jsToNumber (Json.str "Nubank")) :=
  (claim8_accessors
    (Json.obj [("bank", Json.obj [("name", Json.str "Nubank")])]) "bank.name").2.2
    (Json.str "Nubank") (by rfl)
